import Mathlib

/-!
Shallow embedding of src/arma3-automate.py and proofs about the claims of
its specification.

The script drives steamcmd to download Arma 3 workshop mods, verifies the
downloads, links them into a mods directory, and offers a cleanup path.
External effects (filesystem queries, the HTTP changelog fetch together
with the regex scan of its body, the steamcmd subprocess) are modelled as
explicit environment records passed to the embedded functions; machine
state that the script mutates (the shared parameter list, the link
layout) is threaded explicitly.
-/

namespace A3

/-- Python path joining as used throughout the script: both
Path(a) / b and the f-string "{a}/{b}" render as the string a ++ "/" ++ b. -/
def pathJoin (a b : String) : String := a ++ "/" ++ b

/-- Python str applied to an Optional[str] value, as on lines 128-129 of the
source: str(s) = s when the value is a str, and str(None) is the literal
string "None" when the value is absent. -/
def pyStrOfOption (x : Option String) : String :=
  match x with
  | some s => s
  | none => "None"

/-- The script always terminates errors with a bare exit() call.
In Python, exit() raises SystemExit(None), and the interpreter then
terminates the process with exit status 0. -/
def bareExitCode : Nat := 0

/-- Result of a code path that may terminate the whole process via exit(). -/
inductive Outcome (α : Type) where
  | exited (code : Nat)
  | ok (a : α)
deriving DecidableEq, Repr

/-- Environment seen by doesModNeedDownload (source lines 172-187):
os.path.isdir, os.path.getctime (as a timestamp, source compares
datetime values obtained from numeric timestamps, so comparison of the
underlying numbers is the same comparison), and the composite
remote observation UPDATE_PATTERN.search over the decoded body of the
HTTP GET to WORKSHOP_CHANGELOG_URL/modId: some ts when the regex finds
the marker with captured integer ts, none when the marker is absent. -/
structure Env where
  isdir : String → Bool
  ctime : String → Int
  changelogMarker : String → Option Int

/-- doesModNeedDownload (source lines 172-187), additionally reporting how
many outbound HTTP requests the call performs (request.urlopen is reached
exactly when both directory tests succeed). When both directories exist
the changelog page is fetched and scanned; if the marker is present the
function returns updated_at >= created_at where created_at is the ctime of
the path argument (the workshop content root); in every other case control
reaches the final return True. -/
def doesModNeedDownloadT (env : Env) (modId : String) (path : String) : Bool × Nat :=
  if env.isdir path && env.isdir (pathJoin path modId) then
    match env.changelogMarker modId with
    | some updated_at =>
      let created_at := env.ctime path
      (decide (updated_at ≥ created_at), 1)
    | none => (true, 1)
  else
    (true, 0)

/-- The Boolean result of doesModNeedDownload alone. -/
def doesModNeedDownload (env : Env) (modId : String) (path : String) : Bool :=
  (doesModNeedDownloadT env modId path).1

/-- Concrete environment: workshop root r and item directory r/m exist,
the changelog marker is absent. -/
def envMarkerAbsent : Env where
  isdir := fun p => p == "r" || p == pathJoin "r" "m"
  ctime := fun _ => 0
  changelogMarker := fun _ => none

/-- Concrete environment: workshop root r has ctime 5 while the item
directory r/m has ctime 10; the changelog marker for item m carries
timestamp 7. -/
def envRootCtime : Env where
  isdir := fun p => p == "r" || p == pathJoin "r" "m"
  ctime := fun p => if p == pathJoin "r" "m" then 10 else 5
  changelogMarker := fun m => if m == "m" then some 7 else none

/-- Concrete environment: no directories exist at all, yet the marker is
present with a huge timestamp. -/
def envNoDirs : Env where
  isdir := fun _ => false
  ctime := fun _ => 0
  changelogMarker := fun _ => some 1000000

/-- C1 counterexample: with the local content directory present and the
remote marker absent, the staleness check returns true, not false as the
claim states. -/
theorem marker_absent_returns_true_cex :
    envMarkerAbsent.isdir "r" = true
    ∧ envMarkerAbsent.isdir (pathJoin "r" "m") = true
    ∧ envMarkerAbsent.changelogMarker "m" = none
    ∧ doesModNeedDownload envMarkerAbsent "m" "r" = true := by
  refine ⟨rfl, rfl, rfl, ?_⟩
  rfl

/-- C1 amended: for every item whose local content directory exists, if the
remote change-log response contains no timestamp marker, the staleness
check returns true (the item is treated as needing a fetch). -/
theorem marker_absent_returns_true (env : Env) (modId path : String)
    (h1 : env.isdir path = true)
    (h2 : env.isdir (pathJoin path modId) = true)
    (h3 : env.changelogMarker modId = none) :
    doesModNeedDownload env modId path = true := by
  unfold doesModNeedDownload doesModNeedDownloadT
  rw [h1, h2, h3]
  simp

/-- Witness for marker_absent_returns_true at the concrete environment
envMarkerAbsent. -/
theorem marker_absent_returns_true_witness :
    doesModNeedDownload envMarkerAbsent "m" "r" = true :=
  marker_absent_returns_true envMarkerAbsent "m" "r" rfl rfl rfl

/-- C3 counterexample: the claim compares the remote timestamp with the
creation time of the item directory. Here the marker timestamp 7 is
strictly below the item directory ctime 10, so the claim predicts
not-stale, yet the code returns true because it compares against the
ctime 5 of the workshop root (the path argument). -/
theorem staleness_uses_root_ctime_cex :
    envRootCtime.isdir "r" = true
    ∧ envRootCtime.isdir (pathJoin "r" "m") = true
    ∧ envRootCtime.changelogMarker "m" = some 7
    ∧ ¬ ((7 : Int) ≥ envRootCtime.ctime (pathJoin "r" "m"))
    ∧ doesModNeedDownload envRootCtime "m" "r" = true := by
  refine ⟨rfl, rfl, rfl, by decide, ?_⟩
  rfl

/-- C3 amended: when the local content directory exists and the remote
marker is present, the staleness check returns true iff the extracted
remote update timestamp is greater than or equal to the creation time of
the workshop content root (the path argument), the time the code actually
reads with getctime. -/
theorem staleness_vs_root_ctime (env : Env) (modId path : String) (ts : Int)
    (h1 : env.isdir path = true)
    (h2 : env.isdir (pathJoin path modId) = true)
    (h3 : env.changelogMarker modId = some ts) :
    (doesModNeedDownload env modId path = true ↔ ts ≥ env.ctime path) := by
  unfold doesModNeedDownload doesModNeedDownloadT
  rw [h1, h2, h3]
  simp

/-- Witness for staleness_vs_root_ctime at the concrete environment
envRootCtime: marker timestamp 7 is at or above the root ctime 5, so the
check reports stale. -/
theorem staleness_vs_root_ctime_witness :
    doesModNeedDownload envRootCtime "m" "r" = true ∧ (7 : Int) ≥ envRootCtime.ctime "r" :=
  ⟨(staleness_vs_root_ctime envRootCtime "m" "r" 7 rfl rfl rfl).mpr (by decide),
   by decide⟩

/-- C6: when the item directory under the workshop root does not exist,
the staleness check returns true and performs no outbound HTTP request,
regardless of remote signal content. -/
theorem absent_local_always_stale (env : Env) (modId path : String)
    (h : env.isdir (pathJoin path modId) = false) :
    doesModNeedDownloadT env modId path = (true, 0) := by
  unfold doesModNeedDownloadT
  rw [h]
  simp

/-- Witness for absent_local_always_stale at the concrete environment
envNoDirs, whose marker even advertises a far-future update. -/
theorem absent_local_always_stale_witness :
    doesModNeedDownloadT envNoDirs "m" "r" = (true, 0) :=
  absent_local_always_stale envNoDirs "m" "r" rfl

/-- The JSON configuration record after jsonschema validation succeeded
(source lines 86-98): required string fields, the optional steam_user and
do_game_update fields, and the mods object as an ordered name-to-id list
(dict.items() preserves insertion order). -/
structure ConfigJson where
  steam_cmd : String
  server_directory : String
  mod_directory : String
  steam_user : Option String
  mods : List (String × String)
  do_game_update : Option Bool
  arma3_workshop_id : String
deriving DecidableEq, Repr

/-- The extracted configuration (source lines 120-133). STEAM_USER is
always a Python str: line 128-129 wraps the whole conditional in str, so a
missing steam_user key yields the literal string "None" rather than
Python None. WORKSHOP_DIR is SERVER_DIR/steamapps/workshop/content/id. -/
structure Config where
  STEAM_CMD : String
  SERVER_DIR : String
  MODS_DIR : String
  MODS : List (String × String)
  STEAM_USER : String
  ARMA_3_WORKSHOP_ID : String
  WORKSHOP_DIR : String
deriving DecidableEq, Repr

/-- Config._extractConfig (source lines 120-133). -/
def Config.extractConfig (j : ConfigJson) : Config where
  STEAM_CMD := j.steam_cmd
  SERVER_DIR := j.server_directory
  MODS_DIR := j.mod_directory
  MODS := j.mods
  STEAM_USER := pyStrOfOption j.steam_user
  ARMA_3_WORKSHOP_ID := j.arma3_workshop_id
  WORKSHOP_DIR := j.server_directory ++ "/steamapps/workshop/content/" ++ j.arma3_workshop_id

/-- The three exception paths of Config.__init__ (source lines 106-116). -/
inductive ConfigLoadError where
  | fileNotFound
  | jsonDecodeError
  | schemaValidationError
deriving DecidableEq, Repr

/-- Config.__init__ (source lines 100-118). The environment supplies the
result of opening, JSON-decoding and schema-validating the file; on any of
the three errors the script logs and calls bare exit(), otherwise it
extracts the configuration. -/
def Config.load (raw : Except ConfigLoadError ConfigJson) : Outcome Config :=
  match raw with
  | Except.error _ => Outcome.exited bareExitCode
  | Except.ok j => Outcome.ok (Config.extractConfig j)

/-- SteamCmdQuery (source lines 136-165). In the source, the field
declaration on line 138 gives the class attribute a mutable default
list, and instances only ever call append on it, never rebind it, so
every instance of the class aliases one process-wide list. The embedding
therefore threads the parameter list explicitly: a construction receives
the current shared list and appends to it. -/
structure SteamCmdQuery where
  baseQuery : String
  autoQuit : Bool
  runAsSudo : Bool
  parameters : List String
deriving DecidableEq, Repr

/-- SteamCmdQuery.addParameter (source lines 150-151): appends one token. -/
def SteamCmdQuery.addParameter (q : SteamCmdQuery) (parameter : String) : SteamCmdQuery :=
  { q with parameters := q.parameters ++ [parameter] }

/-- SteamCmdQuery.__init__ (source lines 140-148). shared is the current
state of the class-level parameter list (empty only at process start).
Adds the force_install_dir directive, then the login directive when the
username value is not Python None. -/
def SteamCmdQuery.init (shared : List String) (exe : String) (forceInstallDir : String)
    (username : Option String) (autoQuit : Bool) (runAsSudo : Bool) : SteamCmdQuery :=
  let q : SteamCmdQuery :=
    { baseQuery := exe, autoQuit := autoQuit, runAsSudo := runAsSudo, parameters := shared }
  let q := q.addParameter ("+force_install_dir " ++ forceInstallDir)
  match username with
  | some u => q.addParameter ("+login " ++ u)
  | none => q

/-- SteamCmdQuery._getQueryString (source lines 153-156). -/
def SteamCmdQuery.getQueryString (q : SteamCmdQuery) : String :=
  let parameterString := String.intercalate " " q.parameters
  (if q.runAsSudo then "sudo " else "") ++ q.baseQuery ++ " " ++ parameterString

/-- SteamCmdQuery.run (source lines 158-165): appends +quit when autoQuit
is set, renders the query string and hands it to os.system. The embedding
returns the final query state together with the rendered invocation. -/
def SteamCmdQuery.runQuery (q : SteamCmdQuery) : SteamCmdQuery × String :=
  let q2 := if q.autoQuit then q.addParameter "+quit" else q
  (q2, q2.getQueryString)

/-- The download directive token f-string of source line 192. -/
def addModToken (workshopId modId : String) : String :=
  "+workshop_download_item " ++ workshopId ++ " " ++ modId

/-- One iteration of the loop of source lines 189-198: append the download
directive when the staleness check fires, otherwise skip. -/
def addModStep (env : Env) (wdir workshopId : String) (q : SteamCmdQuery)
    (p : String × String) : SteamCmdQuery :=
  if doesModNeedDownload env p.2 wdir then q.addParameter (addModToken workshopId p.2) else q

/-- addModDownloadsToQueryParameters (source lines 168-200): recomputes
the workshop directory from SERVER_DIR and folds the loop body over the
registry in order. -/
def addModDownloadsToQueryParameters (env : Env) (q : SteamCmdQuery) (config : Config) :
    SteamCmdQuery :=
  let A3_WORKSHOP_DIR :=
    config.SERVER_DIR ++ "/steamapps/workshop/content/" ++ config.ARMA_3_WORKSHOP_ID
  List.foldl (addModStep env A3_WORKSHOP_DIR config.ARMA_3_WORKSHOP_ID) q config.MODS

/-- The SteamCmdQuery construction of download_mods (source lines 247-248).
config.STEAM_USER is always a Python str, never Python None, so the login
guard of the constructor always fires; the embedding passes some
accordingly. -/
def buildSteamCmdQuery (shared : List String) (config : Config) : SteamCmdQuery :=
  SteamCmdQuery.init shared config.STEAM_CMD config.SERVER_DIR (some config.STEAM_USER) true true

theorem addParameter_baseQuery (q : SteamCmdQuery) (p : String) :
    (q.addParameter p).baseQuery = q.baseQuery := rfl

theorem addParameter_autoQuit (q : SteamCmdQuery) (p : String) :
    (q.addParameter p).autoQuit = q.autoQuit := rfl

theorem addModStep_autoQuit (env : Env) (wdir wId : String) (q : SteamCmdQuery)
    (p : String × String) : (addModStep env wdir wId q p).autoQuit = q.autoQuit := by
  unfold addModStep
  split <;> rfl

theorem foldl_addModStep_autoQuit (env : Env) (wdir wId : String)
    (l : List (String × String)) (q : SteamCmdQuery) :
    (List.foldl (addModStep env wdir wId) q l).autoQuit = q.autoQuit := by
  induction l generalizing q with
  | nil => rfl
  | cons hd tl ih => rw [List.foldl_cons, ih, addModStep_autoQuit]

theorem addModStep_baseQuery (env : Env) (wdir wId : String) (q : SteamCmdQuery)
    (p : String × String) : (addModStep env wdir wId q p).baseQuery = q.baseQuery := by
  unfold addModStep
  split <;> rfl

theorem foldl_addModStep_baseQuery (env : Env) (wdir wId : String)
    (l : List (String × String)) (q : SteamCmdQuery) :
    (List.foldl (addModStep env wdir wId) q l).baseQuery = q.baseQuery := by
  induction l generalizing q with
  | nil => rfl
  | cons hd tl ih => rw [List.foldl_cons, ih, addModStep_baseQuery]

theorem addModStep_runAsSudo (env : Env) (wdir wId : String) (q : SteamCmdQuery)
    (p : String × String) : (addModStep env wdir wId q p).runAsSudo = q.runAsSudo := by
  unfold addModStep
  split <;> rfl

theorem foldl_addModStep_runAsSudo (env : Env) (wdir wId : String)
    (l : List (String × String)) (q : SteamCmdQuery) :
    (List.foldl (addModStep env wdir wId) q l).runAsSudo = q.runAsSudo := by
  induction l generalizing q with
  | nil => rfl
  | cons hd tl ih => rw [List.foldl_cons, ih, addModStep_runAsSudo]

theorem foldl_addModStep_parameters (env : Env) (wdir wId : String)
    (l : List (String × String)) (q : SteamCmdQuery) :
    (List.foldl (addModStep env wdir wId) q l).parameters
      = q.parameters
        ++ (l.filter (fun p => doesModNeedDownload env p.2 wdir)).map
            (fun p => addModToken wId p.2) := by
  induction l generalizing q with
  | nil => simp
  | cons hd tl ih =>
    rw [List.foldl_cons]
    cases h : doesModNeedDownload env hd.2 wdir with
    | false =>
      rw [List.filter_cons]
      simp only [h, cond_false, Bool.false_eq_true, if_false]
      have hstep : addModStep env wdir wId q hd = q := by
        unfold addModStep
        rw [h]
        simp
      rw [hstep, ih]
    | true =>
      rw [List.filter_cons]
      simp only [h, if_true]
      have hstep : addModStep env wdir wId q hd = q.addParameter (addModToken wId hd.2) := by
        unfold addModStep
        rw [h]
        simp
      rw [hstep, ih]
      simp [SteamCmdQuery.addParameter]

/-- C10: the parameter accumulator is class-level shared state, not
per-instance state. A construction starting from the shared list left by a
previous instance yields a parameter list that begins with every parameter
of that previous instance, followed only by the new force-install and
optional login directives: a second builder does not start with an empty
parameter list. -/
theorem second_query_keeps_shared_parameters (firstParams : List String)
    (exe forceInstallDir : String) (username : Option String) (autoQuit runAsSudo : Bool) :
    (SteamCmdQuery.init firstParams exe forceInstallDir username autoQuit runAsSudo).parameters
      = firstParams
        ++ (["+force_install_dir " ++ forceInstallDir]
            ++ (match username with
                | some u => ["+login " ++ u]
                | none => [])) := by
  cases username with
  | none => simp [SteamCmdQuery.init, SteamCmdQuery.addParameter]
  | some u => simp [SteamCmdQuery.init, SteamCmdQuery.addParameter]

/-- C5: starting from the process-start shared state (empty list), the
rendered invocation preserves parameter order exactly as added: the
force-install directive first, the login directive immediately after it,
the download directives of the stale registry items in registry order, and
the +quit token last; the rendered string joins exactly these tokens in
this order after the optional sudo prefix and the executable. -/
theorem invocation_parameter_order (env : Env)
    (exe serverDir modsDir steamUser workshopId workshopDirField : String)
    (mods : List (String × String)) (runAsSudo : Bool) :
    ((addModDownloadsToQueryParameters env
        (SteamCmdQuery.init [] exe serverDir (some steamUser) true runAsSudo)
        (Config.mk exe serverDir modsDir mods steamUser workshopId workshopDirField)).runQuery).1.parameters
      = ["+force_install_dir " ++ serverDir, "+login " ++ steamUser]
        ++ (mods.filter (fun p => doesModNeedDownload env p.2
              (serverDir ++ "/steamapps/workshop/content/" ++ workshopId))).map
            (fun p => addModToken workshopId p.2)
        ++ ["+quit"]
    ∧ ((addModDownloadsToQueryParameters env
        (SteamCmdQuery.init [] exe serverDir (some steamUser) true runAsSudo)
        (Config.mk exe serverDir modsDir mods steamUser workshopId workshopDirField)).runQuery).2
      = (if runAsSudo then "sudo " else "") ++ exe ++ " "
        ++ String.intercalate " "
            (["+force_install_dir " ++ serverDir, "+login " ++ steamUser]
              ++ (mods.filter (fun p => doesModNeedDownload env p.2
                    (serverDir ++ "/steamapps/workshop/content/" ++ workshopId))).map
                  (fun p => addModToken workshopId p.2)
              ++ ["+quit"]) := by
  have hparams : ∀ X : SteamCmdQuery, X.autoQuit = true →
      (X.runQuery).1 = X.addParameter "+quit" := by
    intro X hX
    unfold SteamCmdQuery.runQuery
    rw [hX]
    simp
  have hauto : (addModDownloadsToQueryParameters env
      (SteamCmdQuery.init [] exe serverDir (some steamUser) true runAsSudo)
      (Config.mk exe serverDir modsDir mods steamUser workshopId workshopDirField)).autoQuit
      = true := by
    unfold addModDownloadsToQueryParameters
    rw [foldl_addModStep_autoQuit]
    rfl
  have hq1 := hparams _ hauto
  have hplist : ((addModDownloadsToQueryParameters env
      (SteamCmdQuery.init [] exe serverDir (some steamUser) true runAsSudo)
      (Config.mk exe serverDir modsDir mods steamUser workshopId workshopDirField)).runQuery).1.parameters
      = ["+force_install_dir " ++ serverDir, "+login " ++ steamUser]
        ++ (mods.filter (fun p => doesModNeedDownload env p.2
              (serverDir ++ "/steamapps/workshop/content/" ++ workshopId))).map
            (fun p => addModToken workshopId p.2)
        ++ ["+quit"] := by
    rw [hq1]
    unfold SteamCmdQuery.addParameter addModDownloadsToQueryParameters
    simp only []
    rw [foldl_addModStep_parameters]
    have hp : (SteamCmdQuery.init [] exe serverDir (some steamUser) true runAsSudo).parameters
        = ["+force_install_dir " ++ serverDir, "+login " ++ steamUser] := rfl
    rw [hp]
  refine ⟨hplist, ?_⟩
  have hrender : ((addModDownloadsToQueryParameters env
      (SteamCmdQuery.init [] exe serverDir (some steamUser) true runAsSudo)
      (Config.mk exe serverDir modsDir mods steamUser workshopId workshopDirField)).runQuery).2
      = (((addModDownloadsToQueryParameters env
      (SteamCmdQuery.init [] exe serverDir (some steamUser) true runAsSudo)
      (Config.mk exe serverDir modsDir mods steamUser workshopId workshopDirField)).runQuery).1).getQueryString := rfl
  rw [hrender]
  unfold SteamCmdQuery.getQueryString
  rw [hplist, hq1]
  have hb : ((addModDownloadsToQueryParameters env
      (SteamCmdQuery.init [] exe serverDir (some steamUser) true runAsSudo)
      (Config.mk exe serverDir modsDir mods steamUser workshopId workshopDirField)).addParameter "+quit").baseQuery
      = exe := by
    rw [addParameter_baseQuery]
    unfold addModDownloadsToQueryParameters
    rw [foldl_addModStep_baseQuery]
    rfl
  have hs : ((addModDownloadsToQueryParameters env
      (SteamCmdQuery.init [] exe serverDir (some steamUser) true runAsSudo)
      (Config.mk exe serverDir modsDir mods steamUser workshopId workshopDirField)).addParameter "+quit").runAsSudo
      = runAsSudo := by
    have h1 : ∀ (q : SteamCmdQuery) (p : String), (q.addParameter p).runAsSudo = q.runAsSudo :=
      fun q p => rfl
    rw [h1]
    unfold addModDownloadsToQueryParameters
    rw [foldl_addModStep_runAsSudo]
    rfl
  rw [hb, hs]

/-- A configuration file with no steam_user key. -/
def configJsonNoUser : ConfigJson where
  steam_cmd := "steamcmd"
  server_directory := "/srv"
  mod_directory := "/mods"
  steam_user := none
  mods := []
  do_game_update := none
  arma3_workshop_id := "107410"

/-- C7: with no steam_user key in the configuration, the rendered
invocation still contains a login token, namely +login None, because
line 128-129 turns the missing value into the string "None" which passes
the constructor guard against Python None. This contradicts the optional
login directive the constructor itself was written for. -/
theorem login_none_rendered_without_user :
    ((buildSteamCmdQuery [] (Config.extractConfig configJsonNoUser)).runQuery).2
      = "sudo steamcmd +force_install_dir /srv +login None +quit" := rfl

/-- Filesystem state seen by the post-fetch verifier and the link
reconciler: the set of existing directories and the created symlinks as
link-path, target pairs. -/
structure LinkFS where
  dirs : List String
  links : List (String × String)
deriving DecidableEq, Repr

/-- os.path.isdir on this state. -/
def LinkFS.isdir (fs : LinkFS) (p : String) : Bool := fs.dirs.contains p

/-- os.path.islink on this state. -/
def LinkFS.islink (fs : LinkFS) (p : String) : Bool := fs.links.any (fun l => l.1 == p)

/-- os.symlink(real_path, link_path): records a new link at link_path
pointing to real_path. Creates no directory. -/
def LinkFS.symlink (fs : LinkFS) (real_path link_path : String) : LinkFS :=
  { fs with links := fs.links ++ [(link_path, real_path)] }

/-- isModDownloaded (source lines 211-214): the content directory
WORKSHOP_DIR/modId exists. -/
def isModDownloaded (fs : LinkFS) (workshopDir modId : String) : Bool :=
  fs.isdir (pathJoin workshopDir modId)

/-- The loop of assertAllModsAreDownloaded (source lines 216-222):
collects, in registry order, every mod whose content directory is absent
(each one is reported with Log.error) and whether abortScript was set. -/
def assertLoopReport (fs : LinkFS) (workshopDir : String) :
    List (String × String) → List (String × String) × Bool
  | [] => ([], false)
  | (modName, modId) :: rest =>
    let r := assertLoopReport fs workshopDir rest
    if isModDownloaded fs workshopDir modId then r
    else ((modName, modId) :: r.1, true)

/-- assertAllModsAreDownloaded (source lines 210-226): after the loop, a
set abortScript flag leads to a bare exit(). Returns the reported missing
mods and the outcome. -/
def assertAllModsAreDownloaded (fs : LinkFS) (config : Config) :
    List (String × String) × Outcome Unit :=
  let r := assertLoopReport fs config.WORKSHOP_DIR config.MODS
  (r.1, if r.2 then Outcome.exited bareExitCode else Outcome.ok ())

/-- createModSymlinks (source lines 229-243). Walks the registry in order;
for each mod whose content directory exists it creates the symlink unless
one is already present; a mod whose content directory is absent logs an
error and bare-exits immediately, abandoning the rest of the loop.
Returns the final filesystem, the link paths created by this suffix of the
walk, and the outcome. -/
def createModSymlinks (config : Config) :
    List (String × String) → LinkFS → LinkFS × List String × Outcome Unit
  | [], fs => (fs, [], Outcome.ok ())
  | (modName, modId) :: rest, fs =>
    let link_path := pathJoin config.MODS_DIR modName
    let real_path := pathJoin config.WORKSHOP_DIR modId
    if fs.isdir real_path then
      if !(fs.islink link_path) then
        let r := createModSymlinks config rest (fs.symlink real_path link_path)
        (r.1, link_path :: r.2.1, r.2.2)
      else
        createModSymlinks config rest fs
    else
      (fs, [], Outcome.exited bareExitCode)

/-- The tail of download_mods after the external tool invocation (source
lines 256-259): verification first; only when it does not exit does the
link reconciliation run. Returns the reported missing mods and the
reconciliation result (unchanged filesystem and no created links when the
verifier exits). -/
def verifyAndLink (fs : LinkFS) (config : Config) :
    List (String × String) × (LinkFS × List String × Outcome Unit) :=
  let v := assertAllModsAreDownloaded fs config
  match v.2 with
  | Outcome.exited c => (v.1, (fs, [], Outcome.exited c))
  | Outcome.ok _ => (v.1, createModSymlinks config config.MODS fs)

theorem assertLoopReport_spec (fs : LinkFS) (workshopDir : String)
    (l : List (String × String)) :
    assertLoopReport fs workshopDir l
      = (l.filter (fun p => !(isModDownloaded fs workshopDir p.2)),
         l.any (fun p => !(isModDownloaded fs workshopDir p.2))) := by
  induction l with
  | nil => rfl
  | cons hd tl ih =>
    obtain ⟨modName, modId⟩ := hd
    unfold assertLoopReport
    rw [ih]
    cases h : isModDownloaded fs workshopDir modId with
    | true => simp [h]
    | false => simp [h]

/-- C4: post-fetch verification is exhaustive and a hard stop. The
reported list is exactly the registry mods whose content directory is
absent, in registry order (all of them, not only the first); and whenever
that list is nonempty the run exits before reconciliation, leaving the
filesystem untouched and creating no links. -/
theorem verifier_exhaustive_hard_stop (config : Config) (fs : LinkFS) :
    (verifyAndLink fs config).1
      = config.MODS.filter (fun p => !(isModDownloaded fs config.WORKSHOP_DIR p.2))
    ∧ (config.MODS.filter (fun p => !(isModDownloaded fs config.WORKSHOP_DIR p.2)) ≠ [] →
        (verifyAndLink fs config).2 = (fs, [], Outcome.exited 0)) := by
  unfold verifyAndLink assertAllModsAreDownloaded
  rw [assertLoopReport_spec]
  cases h : config.MODS.any (fun p => !(isModDownloaded fs config.WORKSHOP_DIR p.2)) with
  | true => exact ⟨rfl, fun _ => rfl⟩
  | false =>
    refine ⟨rfl, fun hne => absurd ?_ hne⟩
    rw [List.filter_eq_nil_iff]
    intro a ha
    rw [List.any_eq_false] at h
    have := h a ha
    simpa using this

/-- A three-item registry where items 1 and 3 are missing post-fetch. -/
def configThree : Config where
  STEAM_CMD := "steamcmd"
  SERVER_DIR := "/srv"
  MODS_DIR := "/mods"
  MODS := [("a", "1"), ("b", "2"), ("c", "3")]
  STEAM_USER := "None"
  ARMA_3_WORKSHOP_ID := "107410"
  WORKSHOP_DIR := "/srv/steamapps/workshop/content/107410"

/-- Post-fetch state for configThree where only item 2 arrived. -/
def fsThree : LinkFS where
  dirs := ["/srv/steamapps/workshop/content/107410/2"]
  links := []

/-- Witness for verifier_exhaustive_hard_stop: with items 1 and 3 missing,
both are reported, in order, and the run exits with no link created. -/
theorem verifier_exhaustive_hard_stop_witness :
    (verifyAndLink fsThree configThree).1 = [("a", "1"), ("c", "3")]
    ∧ (verifyAndLink fsThree configThree).2 = (fsThree, [], Outcome.exited 0) := by
  have h := verifier_exhaustive_hard_stop configThree fsThree
  exact ⟨h.1.trans (by decide), h.2 (by decide)⟩

/-- C2 counterexample: a failing run (here: missing configuration file)
terminates, but not with a non-zero exit status: the bare exit() of the
script gives status 0. -/
theorem failure_exit_not_nonzero_cex :
    ¬ ∃ c : Nat, Config.load (Except.error ConfigLoadError.fileNotFound)
        = Outcome.exited c ∧ c ≠ 0 := by
  rintro ⟨c, hc, hne⟩
  have h0 : Config.load (Except.error ConfigLoadError.fileNotFound)
      = Outcome.exited 0 := rfl
  rw [h0] at hc
  injection hc with h
  exact hne h.symm

/-- C2 amended: whenever the run fails (missing or invalid configuration,
a post-fetch verification failure, or an item expected but absent during
reconciliation), the process terminates immediately at that point, but
with exit status 0, since every abort is a bare exit() call. -/
theorem run_failures_exit_with_status_zero :
    (∀ e : ConfigLoadError, Config.load (Except.error e) = Outcome.exited 0)
    ∧ (∀ (fs : LinkFS) (config : Config),
        config.MODS.filter (fun p => !(isModDownloaded fs config.WORKSHOP_DIR p.2)) ≠ [] →
        (assertAllModsAreDownloaded fs config).2 = Outcome.exited 0)
    ∧ (∀ (config : Config) (modName modId : String) (rest : List (String × String))
        (fs : LinkFS),
        fs.isdir (pathJoin config.WORKSHOP_DIR modId) = false →
        (createModSymlinks config ((modName, modId) :: rest) fs).2.2 = Outcome.exited 0) := by
  refine ⟨fun e => rfl, ?_, ?_⟩
  · intro fs config hne
    unfold assertAllModsAreDownloaded
    rw [assertLoopReport_spec]
    have : config.MODS.any (fun p => !(isModDownloaded fs config.WORKSHOP_DIR p.2)) = true := by
      rcases List.exists_mem_of_ne_nil _ hne with ⟨a, ha⟩
      rw [List.mem_filter] at ha
      exact List.any_eq_true.mpr ⟨a, ha.1, ha.2⟩
    rw [this]
    rfl
  · intro config modName modId rest fs h
    unfold createModSymlinks
    simp [h, bareExitCode]

/-- Witness for run_failures_exit_with_status_zero: the three failure
paths at concrete inputs all exit with status 0. -/
theorem run_failures_exit_with_status_zero_witness :
    Config.load (Except.error ConfigLoadError.fileNotFound) = Outcome.exited 0
    ∧ (assertAllModsAreDownloaded fsThree configThree).2 = Outcome.exited 0
    ∧ (createModSymlinks configThree [("a", "1")] fsThree).2.2 = Outcome.exited 0 :=
  ⟨run_failures_exit_with_status_zero.1 ConfigLoadError.fileNotFound,
   run_failures_exit_with_status_zero.2.1 fsThree configThree (by decide),
   run_failures_exit_with_status_zero.2.2 configThree "a" "1" [] fsThree (by decide)⟩

theorem symlink_isdir (fs : LinkFS) (real_path link_path p : String) :
    (fs.symlink real_path link_path).isdir p = fs.isdir p := rfl

theorem symlink_islink (fs : LinkFS) (real_path link_path p : String) :
    (fs.symlink real_path link_path).islink p = (fs.islink p || (link_path == p)) := by
  unfold LinkFS.symlink LinkFS.islink
  simp

theorem createModSymlinks_isdir (config : Config) (l : List (String × String))
    (fs : LinkFS) (p : String) :
    ((createModSymlinks config l fs).1).isdir p = fs.isdir p := by
  induction l generalizing fs with
  | nil => rfl
  | cons hd tl ih =>
    obtain ⟨modName, modId⟩ := hd
    unfold createModSymlinks
    cases h1 : fs.isdir (pathJoin config.WORKSHOP_DIR modId) with
    | false => simp [h1]
    | true =>
      cases h2 : fs.islink (pathJoin config.MODS_DIR modName) with
      | false => simp [h1, h2, ih, symlink_isdir]
      | true => simp [h1, h2, ih]

theorem createModSymlinks_islink_mono (config : Config) (l : List (String × String))
    (fs : LinkFS) (x : String) (h : fs.islink x = true) :
    ((createModSymlinks config l fs).1).islink x = true := by
  induction l generalizing fs with
  | nil => exact h
  | cons hd tl ih =>
    obtain ⟨modName, modId⟩ := hd
    unfold createModSymlinks
    cases h1 : fs.isdir (pathJoin config.WORKSHOP_DIR modId) with
    | false => simpa [h1] using h
    | true =>
      cases h2 : fs.islink (pathJoin config.MODS_DIR modName) with
      | false =>
        have h3 : (fs.symlink (pathJoin config.WORKSHOP_DIR modId)
            (pathJoin config.MODS_DIR modName)).islink x = true := by
          rw [symlink_islink, h]
          rfl
        simpa [h1, h2] using ih _ h3
      | true => simpa [h1, h2] using ih fs h

theorem createModSymlinks_islink_all (config : Config) (l : List (String × String))
    (fs : LinkFS)
    (h : ∀ p ∈ l, fs.isdir (pathJoin config.WORKSHOP_DIR p.2) = true) :
    ∀ p ∈ l, ((createModSymlinks config l fs).1).islink (pathJoin config.MODS_DIR p.1) = true := by
  induction l generalizing fs with
  | nil => intro p hp; cases hp
  | cons hd tl ih =>
    obtain ⟨modName, modId⟩ := hd
    intro p hp
    have h1 : fs.isdir (pathJoin config.WORKSHOP_DIR modId) = true :=
      h (modName, modId) (List.mem_cons_self _ _)
    unfold createModSymlinks
    cases h2 : fs.islink (pathJoin config.MODS_DIR modName) with
    | false =>
      simp only [h1, h2, Bool.not_false, if_true]
      set fs2 := fs.symlink (pathJoin config.WORKSHOP_DIR modId)
        (pathJoin config.MODS_DIR modName) with hfs2
      have hdirs2 : ∀ q ∈ tl, fs2.isdir (pathJoin config.WORKSHOP_DIR q.2) = true := by
        intro q hq
        rw [hfs2, symlink_isdir]
        exact h q (List.mem_cons_of_mem _ hq)
      rcases List.mem_cons.mp hp with hhd | htl
      · have hx : fs2.islink (pathJoin config.MODS_DIR modName) = true := by
          rw [hfs2, symlink_islink, h2]
          simp
        have := createModSymlinks_islink_mono config tl fs2 _ hx
        rw [hhd]
        simpa using this
      · simpa using ih fs2 hdirs2 p htl
    | true =>
      simp only [h1, h2, Bool.not_true, if_true]
      rcases List.mem_cons.mp hp with hhd | htl
      · have := createModSymlinks_islink_mono config tl fs _ h2
        rw [hhd]
        simpa [h1] using this
      · have hdirs : ∀ q ∈ tl, fs.isdir (pathJoin config.WORKSHOP_DIR q.2) = true :=
          fun q hq => h q (List.mem_cons_of_mem _ hq)
        simpa [h1] using ih fs hdirs p htl

theorem createModSymlinks_noop (config : Config) (l : List (String × String))
    (fs : LinkFS)
    (h1 : ∀ p ∈ l, fs.isdir (pathJoin config.WORKSHOP_DIR p.2) = true)
    (h2 : ∀ p ∈ l, fs.islink (pathJoin config.MODS_DIR p.1) = true) :
    createModSymlinks config l fs = (fs, [], Outcome.ok ()) := by
  induction l with
  | nil => rfl
  | cons hd tl ih =>
    obtain ⟨modName, modId⟩ := hd
    unfold createModSymlinks
    have hd1 : fs.isdir (pathJoin config.WORKSHOP_DIR modId) = true :=
      h1 (modName, modId) (List.mem_cons_self _ _)
    have hd2 : fs.islink (pathJoin config.MODS_DIR modName) = true :=
      h2 (modName, modId) (List.mem_cons_self _ _)
    simp only [hd1, hd2, Bool.not_true, if_true]
    exact ih (fun q hq => h1 q (List.mem_cons_of_mem _ hq))
      (fun q hq => h2 q (List.mem_cons_of_mem _ hq))

/-- C9: link reconciliation is idempotent. If every registry item has a
verified content directory, running createModSymlinks a second time on the
state produced by the first run returns that state unchanged, creates zero
links, and completes without exiting. -/
theorem reconcile_idempotent (config : Config) (mods : List (String × String))
    (fs : LinkFS)
    (h : ∀ p ∈ mods, fs.isdir (pathJoin config.WORKSHOP_DIR p.2) = true) :
    createModSymlinks config mods (createModSymlinks config mods fs).1
      = ((createModSymlinks config mods fs).1, [], Outcome.ok ()) := by
  apply createModSymlinks_noop
  · intro p hp
    rw [createModSymlinks_isdir]
    exact h p hp
  · exact createModSymlinks_islink_all config mods fs h

/-- A one-item verified state for the idempotence witness. -/
def fsVerified : LinkFS where
  dirs := ["/srv/steamapps/workshop/content/107410/1",
           "/srv/steamapps/workshop/content/107410/2",
           "/srv/steamapps/workshop/content/107410/3"]
  links := []

/-- Witness for reconcile_idempotent: a second reconciliation over the
three verified mods of configThree is a no-op. -/
theorem reconcile_idempotent_witness :
    createModSymlinks configThree configThree.MODS
        (createModSymlinks configThree configThree.MODS fsVerified).1
      = ((createModSymlinks configThree configThree.MODS fsVerified).1, [], Outcome.ok ()) :=
  reconcile_idempotent configThree configThree.MODS fsVerified (by decide)

/-- Filesystem state seen by clean: whether the workshop content root and
the mods root exist as directories, and the entry names directly under the
mods root. -/
structure CleanFS where
  workshopIsDir : Bool
  modsIsDir : Bool
  modsEntries : List String
deriving DecidableEq, Repr

/-- The glob pattern built on source line 271 is the mods directory
followed by slash, an asterisk and a stray trailing single-quote
character (codepoint 39): it matches exactly the entries whose name ends
in that quote character. -/
def matchesStrayGlob (name : String) : Bool :=
  name.toList.getLast? == some (Char.ofNat 39)

/-- clean (source lines 264-275): if the workshop root exists it is
removed recursively with shutil.rmtree; if the mods root exists, every
path matched by the (stray-quoted) glob pattern is removed with
os.remove. -/
def clean (fs : CleanFS) : CleanFS :=
  let fs1 := if fs.workshopIsDir then { fs with workshopIsDir := false } else fs
  if fs1.modsIsDir then
    { fs1 with modsEntries := fs1.modsEntries.filter (fun e => !(matchesStrayGlob e)) }
  else fs1

/-- C8 failing input: a mods root containing the ordinary entry foo. The
claim says clean deletes every entry directly under the mods root, but the
stray trailing quote in the glob pattern makes the pattern match only
names ending in that quote character, so foo survives cleanup while the
workshop root is removed. -/
theorem clean_leaves_plain_mods_entries :
    clean { workshopIsDir := true, modsIsDir := true, modsEntries := ["foo"] }
      = { workshopIsDir := false, modsIsDir := true, modsEntries := ["foo"] } := by
  decide

end A3
